import Mathlib

/-!
Shallow embedding of `src/lfs_server.py`, an S3-backed Git LFS server.

The server keeps an in-memory dict `version_mapping : OID -> {path, version_id, etag}`
(persisted to `s3_version_mapping.json`), resolves OIDs to S3 keys either
through that mapping or by hashing every file under `lfs_storage/`, and
exposes Flask endpoints for the LFS batch API and direct PUT/GET transfers.

The SHA-256 function and the S3 client are external library calls; they are
modelled as parameters of an `Env` record.  File contents and request bodies
are byte lists.  Mutation of the global `version_mapping` and its persisted
snapshot is made explicit: stateful functions take and return an `SState`,
and endpoints additionally report the backend `put_object` calls they issued
and the number of full-store scans they triggered, so that frame and caching
claims are observable.
-/

/-- Raw byte content of a file or request body (`bytes` in Python). -/
abbrev Bytes := List Nat

/-- One value of the `version_mapping` dict: `{'path': ..., 'version_id': ..., 'etag': ...}`
(lines 130-134 of the source).  `version_id` is `Option` because boto3 returns
no `VersionId` on an unversioned bucket (`response.get('VersionId')` is `None`). -/
structure VMEntry where
  path : String
  version_id : Option String
  etag : String
deriving DecidableEq, Repr

/-- The `version_mapping` dict, as an association list keyed by OID. -/
abbrev VMap := List (String × VMEntry)

/-- Dict membership / lookup: `version_mapping.get(oid)`. -/
def vmLookup : VMap → String → Option VMEntry
  | [], _ => none
  | (k, v) :: rest, oid => if k = oid then some v else vmLookup rest oid

/-- Dict assignment `version_mapping[oid] = entry`: replaces an existing
binding in place, otherwise appends. -/
def vmInsert : VMap → String → VMEntry → VMap
  | [], oid, e => [(oid, e)]
  | (k, v) :: rest, oid, e =>
    if k = oid then (oid, e) :: rest else (k, v) :: vmInsert rest oid e

/-- A file under the `lfs_storage/` tree: its path relative to `lfs_storage/`
(separators already normalized to `/`, line 66) and its byte content.
The list order is the `os.walk` encounter order. -/
structure LocalFile where
  relpath : String
  content : Bytes
deriving DecidableEq, Repr

/-- Outcome of `s3_client.put_object` (line 118): success carries the optional
`VersionId` and optional `ETag` of the response; failure is a `ClientError`. -/
inductive PutOutcome where
  | ok (versionId : Option String) (etag : Option String)
  | err
deriving DecidableEq, Repr

/-- Outcome of `s3_client.get_object` (lines 161-167): the body bytes on
success, or a `ClientError` with its error code. -/
inductive GetOutcome where
  | ok (data : Bytes)
  | err (code : String)
deriving DecidableEq, Repr

/-- Outcome of `s3_client.head_object` (line 98). -/
inductive HeadOutcome where
  | ok
  | err (code : String)
deriving DecidableEq, Repr

/-- The S3 backend, as response functions.  `getResult` takes the key and the
`VersionId` parameter actually passed (`none` when the call omits it, i.e.
fetches the latest version). -/
structure S3Backend where
  putResult : String → Bytes → PutOutcome
  getResult : String → Option String → GetOutcome
  headResult : String → HeadOutcome

/-- The ambient environment: the SHA-256 hex digest function (`hashlib`),
the `lfs_storage/` tree in walk order, and the S3 backend. -/
structure Env where
  sha256hex : Bytes → String
  storage : List LocalFile
  s3 : S3Backend

/-- Mutable server state: the in-memory `version_mapping` and the contents of
the persisted snapshot file `s3_version_mapping.json`. -/
structure SState where
  vm : VMap
  disk : VMap
deriving DecidableEq, Repr

/-- Embeds `get_file_path_from_local(oid)` (lines 50-69): walk every file under
`lfs_storage/`, hash it, and return the relative path of the first file whose
SHA-256 hex digest equals `oid`; `None` when the directory is absent or no
file matches (an absent directory behaves as an empty walk). -/
def get_file_path_from_local (env : Env) (oid : String) : Option String :=
  env.storage.findSome? fun f =>
    if env.sha256hex f.content = oid then some f.relpath else none

/-- Embeds `get_s3_key(oid)` (lines 71-87): the mapped `path` when `oid` is in
`version_mapping`, else the result of the full local scan; no further
fallback. -/
def get_s3_key (env : Env) (vm : VMap) (oid : String) : Option String :=
  match vmLookup vm oid with
  | some e => some e.path
  | none => get_file_path_from_local env oid

/-- Number of full-store scans a single `get_s3_key(oid)` call performs:
zero on a `version_mapping` hit, one otherwise (lines 74-80). -/
def scanCount (vm : VMap) (oid : String) : Nat :=
  match vmLookup vm oid with
  | some _ => 0
  | none => 1

/-- Embeds `object_exists_in_s3(oid)` (lines 89-107): `False` when no key resolves;
otherwise `head_object`, with every `ClientError` (404 or not) reported as
`False`. -/
def object_exists_in_s3 (env : Env) (vm : VMap) (oid : String) : Bool :=
  match get_s3_key env vm oid with
  | none => false
  | some key =>
    match env.s3.headResult key with
    | .ok => true
    | .err _ => false

/-- Result of `upload_to_s3`: the returned boolean, the server state
afterwards, the `put_object` calls issued, and the scans triggered. -/
structure UploadS3Result where
  success : Bool
  st : SState
  puts : List (String × Bytes)
  scans : Nat
deriving DecidableEq, Repr

/-- Embeds `upload_to_s3(oid, data)` (lines 109-143): resolve a key (failing with
`False` if none), `put_object`, then on success store
`{'path': key, 'version_id': response.get('VersionId'),
'etag': response.get('ETag', 'No ETag')}` in `version_mapping` and call
`save_version_mapping()` (which rewrites the snapshot file) before returning
`True`; a `ClientError` from the put returns `False` with no state change. -/
def upload_to_s3 (env : Env) (st : SState) (oid : String) (data : Bytes) :
    UploadS3Result :=
  match get_s3_key env st.vm oid with
  | none => ⟨false, st, [], scanCount st.vm oid⟩
  | some key =>
    match env.s3.putResult key data with
    | .ok vid etag =>
      let vm2 := vmInsert st.vm oid ⟨key, vid, etag.getD "No ETag"⟩
      ⟨true, ⟨vm2, vm2⟩, [(key, data)], scanCount st.vm oid⟩
    | .err => ⟨false, st, [(key, data)], scanCount st.vm oid⟩

/-- The `VersionId` parameter a `download_from_s3(oid)` call passes to
`get_object` (lines 152-167): the mapped `version_id` when present and truthy
(Python `if version_id:` — the empty string is falsy), else no parameter. -/
def effective_version_id (vm : VMap) (oid : String) : Option String :=
  match (vmLookup vm oid).bind (fun e => e.version_id) with
  | some v => if v = "" then none else some v
  | none => none

/-- Embeds `download_from_s3(oid)` (lines 145-175): resolve a key (`None` if none),
`get_object` pinned to the mapped version when available, and `None` on any
`ClientError`. -/
def download_from_s3 (env : Env) (vm : VMap) (oid : String) : Option Bytes :=
  match get_s3_key env vm oid with
  | none => none
  | some key =>
    match env.s3.getResult key (effective_version_id vm oid) with
    | .ok data => some data
    | .err _ => none

/-- The body the `get_object` outcome turns into inside `download_from_s3`. -/
def s3GetData (env : Env) (key : String) (vid : Option String) : Option Bytes :=
  match env.s3.getResult key vid with
  | .ok data => some data
  | .err _ => none

/-- An HTTP response of the direct-transfer endpoints: `('', 200)`,
a 200 octet-stream attachment, or `jsonify({'error': msg}), status`. -/
inductive HttpResponse where
  | okEmpty
  | fileData (data : Bytes) (oid : String)
  | jsonError (status : Nat) (msg : String)
deriving DecidableEq, Repr

/-- What a direct-transfer endpoint produced: the HTTP response, the server
state afterwards, the backend `put_object` calls issued, and the number of
full-store scans triggered. -/
structure EndpointResult where
  resp : HttpResponse
  st : SState
  puts : List (String × Bytes)
  scans : Nat
deriving DecidableEq, Repr

/-- Embeds `upload_object(repo_path, oid)` (lines 248-269): hash the body, reject
with `400 {'error': 'Hash mismatch'}` when the hex digest differs from `oid`
(string comparison, line 259), else `upload_to_s3` and answer `('', 200)` on
`True`, `500 {'error': 'Upload failed'}` on `False`. -/
def upload_object (env : Env) (st : SState) (oid : String) (data : Bytes) :
    EndpointResult :=
  let actual_hash := env.sha256hex data
  if actual_hash ≠ oid then
    ⟨.jsonError 400 "Hash mismatch", st, [], 0⟩
  else
    let r := upload_to_s3 env st oid data
    if r.success then
      ⟨.okEmpty, r.st, r.puts, r.scans⟩
    else
      ⟨.jsonError 500 "Upload failed", r.st, r.puts, r.scans⟩

/-- Embeds `download_object(repo_path, oid)` (lines 271-288): `download_from_s3`,
answering `404 {'error': 'Object not found'}` on `None` and the bytes as an
octet-stream attachment otherwise.  Nothing here writes `version_mapping`. -/
def download_object (env : Env) (st : SState) (oid : String) : EndpointResult :=
  match download_from_s3 env st.vm oid with
  | none => ⟨.jsonError 404 "Object not found", st, [], scanCount st.vm oid⟩
  | some data => ⟨.fileData data oid, st, [], scanCount st.vm oid⟩

/-- One object of a batch request body: `{'oid': ..., 'size': ...}`. -/
structure LfsObj where
  oid : String
  size : Nat
deriving DecidableEq, Repr

/-- A transfer action `{'href': ..., 'header': {}, 'expires_in': ...}`
(the `header` field is always the empty dict and is omitted). -/
structure TransferAction where
  href : String
  expires_in : Nat
deriving DecidableEq, Repr

/-- One element of the batch response's `objects` list: an object annotated
with a download action, an upload action, or a structured error. -/
inductive ObjResult where
  | withDownload (oid : String) (size : Nat) (action : TransferAction)
  | withUpload (oid : String) (size : Nat) (action : TransferAction)
  | withError (oid : String) (size : Nat) (code : Nat) (message : String)
deriving DecidableEq, Repr

/-- The direct-transfer href the batch handler builds (lines 210 and 234):
the server's public base URL followed by `repo_path/objects/oid`. -/
def objectHref (repo_path oid : String) : String :=
  "https://bf921069a201.ngrok-free.app/" ++ repo_path ++ "/objects/" ++ oid

/-- The loop body of `batch_objects` for one input object (lines 190-239):
for `download`, an action when `object_exists_in_s3` and a
`{'code': 404, 'message': 'Object not found'}` error otherwise; for `upload`,
always an action; for any other operation string, nothing is appended. -/
def processObject (env : Env) (vm : VMap) (repo_path operation : String)
    (obj : LfsObj) : Option ObjResult :=
  if operation = "download" then
    if object_exists_in_s3 env vm obj.oid then
      some (.withDownload obj.oid obj.size ⟨objectHref repo_path obj.oid, 3600⟩)
    else
      some (.withError obj.oid obj.size 404 "Object not found")
  else if operation = "upload" then
    some (.withUpload obj.oid obj.size ⟨objectHref repo_path obj.oid, 3600⟩)
  else
    none

/-- The batch response body: `{'transfer': 'basic', 'objects': [...]}`. -/
structure BatchResponse where
  transfer : String
  objects : List ObjResult
deriving DecidableEq, Repr

/-- Embeds `batch_objects(repo_path)` (lines 177-246): `operation` defaults to
`'download'` only when the field is absent (`data.get('operation',
'download')`), then the per-object loop.  Nothing here writes
`version_mapping`, so the state is returned unchanged. -/
def batch_objects (env : Env) (st : SState) (repo_path : String)
    (operationField : Option String) (objects : List LfsObj) :
    BatchResponse × SState :=
  let operation := operationField.getD "download"
  (⟨"basic", objects.filterMap (processObject env st.vm repo_path operation)⟩, st)

/-! ### Concrete fixtures for witnesses and counterexamples -/

/-- A toy hash function for concrete instances: content `[1]` hashes to
`"aa"`, everything else to `"zz"`. -/
def demoHash : Bytes → String := fun b => if b = [1] then "aa" else "zz"

/-- A backend on which every call succeeds; puts are versioned `"V1"` with
ETag `"E1"`, gets return `[1]`. -/
def demoBackend : S3Backend :=
  ⟨fun _ _ => .ok (some "V1") (some "E1"), fun _ _ => .ok [1], fun _ => .ok⟩

/-- Concrete environment: one stored file `dir/f.bin` with content `[1]`. -/
def demoEnv : Env := ⟨demoHash, [⟨"dir/f.bin", [1]⟩], demoBackend⟩

/-- Fresh server state: empty mapping, empty snapshot. -/
def demoSt : SState := ⟨[], []⟩

/-- A backend whose get fails with a non-404 permission error (`"403"`). -/
def deniedBackend : S3Backend :=
  ⟨fun _ _ => .err, fun _ _ => .err "403", fun _ => .ok⟩

/-- Environment over the denied backend with an empty storage tree. -/
def deniedEnv : Env := ⟨demoHash, [], deniedBackend⟩

/-- State whose mapping already resolves `"aa"` to key `"p"`, unversioned. -/
def mappedSt : SState :=
  ⟨[("aa", ⟨"p", none, "E"⟩)], [("aa", ⟨"p", none, "E"⟩)]⟩

/-- Environment whose hash function returns the lowercase digest `"ab"` for
every input, used to probe case sensitivity of the upload comparison. -/
def lowerEnv : Env := ⟨fun _ => "ab", [], demoBackend⟩

/-! ### Helper lemmas -/

/-- Looking up the freshly inserted key returns the freshly inserted entry. -/
theorem vmLookup_vmInsert_self (vm : VMap) (oid : String) (e : VMEntry) :
    vmLookup (vmInsert vm oid e) oid = some e := by
  induction vm with
  | nil => simp [vmInsert, vmLookup]
  | cons kv rest ih =>
    obtain ⟨k, v⟩ := kv
    by_cases h : k = oid
    · simp [vmInsert, vmLookup, h]
    · simp [vmInsert, vmLookup, h, ih]

/-- The GET endpoint never changes the server state. -/
theorem download_object_st (env : Env) (st : SState) (oid : String) :
    (download_object env st oid).st = st := by
  unfold download_object
  cases download_from_s3 env st.vm oid <;> rfl

/-- The GET endpoint issues no backend puts. -/
theorem download_object_puts (env : Env) (st : SState) (oid : String) :
    (download_object env st oid).puts = [] := by
  unfold download_object
  cases download_from_s3 env st.vm oid <;> rfl

/-- The GET endpoint triggers exactly the scans of one key resolution. -/
theorem download_object_scans (env : Env) (st : SState) (oid : String) :
    (download_object env st oid).scans = scanCount st.vm oid := by
  unfold download_object
  cases download_from_s3 env st.vm oid <;> rfl

/-- For operation `download`, the loop body always appends exactly one
result: an action when the object exists, a 404 error otherwise. -/
theorem processObject_download (env : Env) (vm : VMap) (repo : String)
    (o : LfsObj) :
    processObject env vm repo "download" o =
      some (if object_exists_in_s3 env vm o.oid then
              .withDownload o.oid o.size ⟨objectHref repo o.oid, 3600⟩
            else
              .withError o.oid o.size 404 "Object not found") := by
  cases h : object_exists_in_s3 env vm o.oid <;> simp [processObject, h]

/-- For operation `upload`, the loop body always appends one action. -/
theorem processObject_upload (env : Env) (vm : VMap) (repo : String)
    (o : LfsObj) :
    processObject env vm repo "upload" o =
      some (.withUpload o.oid o.size ⟨objectHref repo o.oid, 3600⟩) := by
  unfold processObject
  rw [if_neg (by decide), if_pos rfl]

/-- For any other operation string, the loop body appends nothing. -/
theorem processObject_other (env : Env) (vm : VMap) (repo op : String)
    (o : LfsObj) (h1 : op ≠ "download") (h2 : op ≠ "upload") :
    processObject env vm repo op o = none := by
  unfold processObject
  rw [if_neg h1, if_neg h2]

/-! ### Claim theorems -/

/-- C5: for operation `download`, the batch endpoint returns one result per
input object in input order — a download TransferAction with `expires_in`
3600 pointing at this server's direct-transfer endpoint when the object
exists, the structured error `{code: 404, message: 'Object not found'}`
otherwise — and a missing object never aborts processing of its siblings. -/
theorem batch_download_per_object (env : Env) (st : SState) (repo : String)
    (objects : List LfsObj) :
    (batch_objects env st repo (some "download") objects).1.objects =
      objects.map (fun o =>
        if object_exists_in_s3 env st.vm o.oid then
          ObjResult.withDownload o.oid o.size ⟨objectHref repo o.oid, 3600⟩
        else
          ObjResult.withError o.oid o.size 404 "Object not found") ∧
    (batch_objects env st repo (some "download") objects).1.objects.length
      = objects.length := by
  have key : (batch_objects env st repo (some "download") objects).1.objects =
      objects.map (fun o =>
        if object_exists_in_s3 env st.vm o.oid then
          ObjResult.withDownload o.oid o.size ⟨objectHref repo o.oid, 3600⟩
        else
          ObjResult.withError o.oid o.size 404 "Object not found") := by
    show objects.filterMap (processObject env st.vm repo "download") = _
    induction objects with
    | nil => rfl
    | cons o rest ih =>
      simp only [List.filterMap_cons, processObject_download, List.map_cons]
      rw [ih]
  exact ⟨key, by rw [key, List.length_map]⟩

/-- C6: for operation `upload`, every input object unconditionally receives
an upload TransferAction; the result does not consult the backend or the
mapping, so no existence check is performed. -/
theorem batch_upload_unconditional (env : Env) (st : SState) (repo : String)
    (objects : List LfsObj) :
    (batch_objects env st repo (some "upload") objects).1.objects =
      objects.map (fun o =>
        ObjResult.withUpload o.oid o.size ⟨objectHref repo o.oid, 3600⟩) := by
  show objects.filterMap (processObject env st.vm repo "upload") = _
  induction objects with
  | nil => rfl
  | cons o rest ih =>
    simp only [List.filterMap_cons, processObject_upload, List.map_cons]
    rw [ih]

/-- C2, counterexample: with operation present but equal to `"verify"`, the
batch endpoint returns an empty per-object result list, while the same
request with operation `"download"` yields one download action — so an
unrecognized present operation does not behave like `download`. -/
theorem batch_unknown_op_cex :
    (batch_objects demoEnv demoSt "r" (some "verify") [⟨"aa", 1⟩]).1.objects
      = [] ∧
    (batch_objects demoEnv demoSt "r" (some "download") [⟨"aa", 1⟩]).1.objects
      = [ObjResult.withDownload "aa" 1 ⟨objectHref "r" "aa", 3600⟩] := by
  exact ⟨rfl, rfl⟩

/-- C2, amended: an operation field that is present but neither `"download"`
nor `"upload"` yields no per-object results at all (the response's objects
list is empty); only an absent operation field defaults to `download`
behavior. -/
theorem batch_unknown_op_empty (env : Env) (st : SState) (repo op : String)
    (objects : List LfsObj) (h1 : op ≠ "download") (h2 : op ≠ "upload") :
    (batch_objects env st repo (some op) objects).1.objects = [] ∧
    (batch_objects env st repo none objects).1 =
      (batch_objects env st repo (some "download") objects).1 := by
  constructor
  · show objects.filterMap (processObject env st.vm repo op) = []
    induction objects with
    | nil => rfl
    | cons o rest ih =>
      simp only [List.filterMap_cons,
        processObject_other env st.vm repo op _ h1 h2]
      exact ih
  · rfl

/-- C2, witness for the amended claim at operation `"verify"`. -/
theorem batch_unknown_op_empty_witness :
    (batch_objects demoEnv demoSt "r" (some "verify") [⟨"aa", 1⟩]).1.objects
      = [] ∧
    (batch_objects demoEnv demoSt "r" none [⟨"aa", 1⟩]).1 =
      (batch_objects demoEnv demoSt "r" (some "download") [⟨"aa", 1⟩]).1 :=
  batch_unknown_op_empty demoEnv demoSt "r" "verify" [⟨"aa", 1⟩]
    (by decide) (by decide)

/-- C1, counterexample: with an empty mapping and a stored file whose hash is
`"aa"`, resolution succeeds via the full scan, but no LocationRecord is
created or persisted (the mapping after the GET is still empty), and a
second resolution of the same identifier scans the storage tree again
(scan count 1, not 0). -/
theorem resolve_scan_no_record_cex :
    vmLookup demoSt.vm "aa" = none ∧
    get_s3_key demoEnv demoSt.vm "aa" = some "dir/f.bin" ∧
    (download_object demoEnv demoSt "aa").st.vm = [] ∧
    (download_object demoEnv
        ((download_object demoEnv demoSt "aa").st) "aa").scans = 1 := by
  decide

/-- C1, amended: for an identifier absent from the mapping, `get_s3_key`
performs the full-store scan and returns its result, but creates no record:
the server state is unchanged by the GET endpoint, the first resolution
scans once, and a second resolution of the same identifier scans again. -/
theorem resolve_scan_no_record (env : Env) (st : SState) (oid : String)
    (hmiss : vmLookup st.vm oid = none) :
    get_s3_key env st.vm oid = get_file_path_from_local env oid ∧
    (download_object env st oid).st = st ∧
    (download_object env st oid).scans = 1 ∧
    (download_object env ((download_object env st oid).st) oid).scans = 1 := by
  have hscan : scanCount st.vm oid = 1 := by simp [scanCount, hmiss]
  have hst : (download_object env st oid).st = st := download_object_st env st oid
  refine ⟨?_, hst, ?_, ?_⟩
  · unfold get_s3_key
    rw [hmiss]
  · rw [download_object_scans, hscan]
  · rw [hst, download_object_scans, hscan]

/-- C1, witness for the amended claim on the concrete environment. -/
theorem resolve_scan_no_record_witness :
    get_s3_key demoEnv demoSt.vm "aa" = get_file_path_from_local demoEnv "aa" ∧
    (download_object demoEnv demoSt "aa").st = demoSt ∧
    (download_object demoEnv demoSt "aa").scans = 1 ∧
    (download_object demoEnv
        ((download_object demoEnv demoSt "aa").st) "aa").scans = 1 :=
  resolve_scan_no_record demoEnv demoSt "aa" (by decide)

/-- C3, counterexample: a claimed identifier equal to the hex digest up to
letter case (the uppercase `"AB"` versus digest `"ab"`) is rejected with
`400 Hash mismatch`, so the comparison is not case-insensitive. -/
theorem upload_hash_case_sensitive_cex :
    ("AB").data.map Char.toLower = (lowerEnv.sha256hex [1]).data ∧
    (upload_object lowerEnv demoSt "AB" [1]).resp =
      .jsonError 400 "Hash mismatch" := by
  decide

/-- C3, amended: the upload hash check is an exact, case-sensitive string
comparison — the endpoint rejects with `400 Hash mismatch` precisely when
the computed hex digest differs from the claimed identifier as a string,
so any case variant of the digest other than the digest itself is
rejected. -/
theorem upload_hash_exact_compare (env : Env) (st : SState) (oid : String)
    (data : Bytes) :
    ((upload_object env st oid data).resp = .jsonError 400 "Hash mismatch")
      ↔ env.sha256hex data ≠ oid := by
  by_cases h : env.sha256hex data = oid
  · cases hr : (upload_to_s3 env st oid data).success <;>
      simp [upload_object, h, hr]
  · simp [upload_object, h]

/-- C4, counterexample: with a mapping entry resolving `"aa"` to key `"p"`
and a backend whose get fails with the non-404 code `"403"`, the GET
endpoint answers `404 Object not found`, not a 5xx-equivalent. -/
theorem download_backend_error_cex :
    deniedEnv.s3.getResult "p" none = .err "403" ∧
    (download_object deniedEnv mappedSt "aa").resp =
      .jsonError 404 "Object not found" := by
  decide

/-- C4, amended: every `ClientError` from the backend get — whatever its
code, 404 or a connectivity/permission failure — makes `download_from_s3`
return `None`, and the GET endpoint answers `404 Object not found`; no
5xx-equivalent is ever produced for a resolvable identifier. -/
theorem download_backend_error_404 (env : Env) (st : SState)
    (oid key code : String)
    (hk : get_s3_key env st.vm oid = some key)
    (hget : env.s3.getResult key (effective_version_id st.vm oid)
      = .err code) :
    (download_object env st oid).resp = .jsonError 404 "Object not found" := by
  have hd : download_from_s3 env st.vm oid = none := by
    simp only [download_from_s3, hk, hget]
  simp only [download_object, hd]

/-- C4, witness for the amended claim at code `"403"`. -/
theorem download_backend_error_404_witness :
    (download_object deniedEnv mappedSt "aa").resp =
      .jsonError 404 "Object not found" :=
  download_backend_error_404 deniedEnv mappedSt "aa" "p" "403"
    (by decide) (by decide)

/-- C7: when the computed digest differs from the claimed identifier, the
direct PUT answers `400 Hash mismatch`, the server state (mapping and
persisted snapshot) is returned unchanged, no backend put is issued, and no
scan is even triggered — no trace of the content is left under that
identifier. -/
theorem upload_hash_mismatch_rejects (env : Env) (st : SState) (oid : String)
    (data : Bytes) (h : env.sha256hex data ≠ oid) :
    upload_object env st oid data =
      ⟨.jsonError 400 "Hash mismatch", st, [], 0⟩ := by
  simp [upload_object, h]

/-- C7, witness: `demoHash [1] = "aa" ≠ "bb"`. -/
theorem upload_hash_mismatch_rejects_witness :
    upload_object demoEnv demoSt "bb" [1] =
      ⟨.jsonError 400 "Hash mismatch", demoSt, [], 0⟩ :=
  upload_hash_mismatch_rejects demoEnv demoSt "bb" [1] (by decide)

/-- C8: a successful store records the backend-assigned version token and
content tag in the mapping entry for the identifier, synchronously persists
the whole index (snapshot equals mapping) before returning, and a subsequent
fetch of that identifier passes exactly that version token to the backend
get — in particular, when the recorded token is `none` the get is issued
without a `VersionId`, i.e. fetches the backend's latest version.  The
hypothesis `vid ≠ some ""` reflects that S3 never assigns an empty version
id (Python truthiness would drop it). -/
theorem store_records_version_fetch_pins (env : Env) (st : SState)
    (oid : String) (data : Bytes) (key : String) (vid etag : Option String)
    (hk : get_s3_key env st.vm oid = some key)
    (hput : env.s3.putResult key data = .ok vid etag)
    (hvid : vid ≠ some "") :
    (upload_to_s3 env st oid data).success = true ∧
    vmLookup (upload_to_s3 env st oid data).st.vm oid =
      some ⟨key, vid, etag.getD "No ETag"⟩ ∧
    (upload_to_s3 env st oid data).st.disk =
      (upload_to_s3 env st oid data).st.vm ∧
    download_from_s3 env (upload_to_s3 env st oid data).st.vm oid =
      s3GetData env key vid := by
  have hup : upload_to_s3 env st oid data =
      ⟨true, ⟨vmInsert st.vm oid ⟨key, vid, etag.getD "No ETag"⟩,
              vmInsert st.vm oid ⟨key, vid, etag.getD "No ETag"⟩⟩,
       [(key, data)], scanCount st.vm oid⟩ := by
    simp only [upload_to_s3, hk, hput]
  rw [hup]
  have hlook : vmLookup (vmInsert st.vm oid ⟨key, vid, etag.getD "No ETag"⟩)
      oid = some ⟨key, vid, etag.getD "No ETag"⟩ :=
    vmLookup_vmInsert_self st.vm oid _
  refine ⟨rfl, hlook, rfl, ?_⟩
  have hkey : get_s3_key env
      (vmInsert st.vm oid ⟨key, vid, etag.getD "No ETag"⟩) oid = some key := by
    simp only [get_s3_key, hlook]
  have heff : effective_version_id
      (vmInsert st.vm oid ⟨key, vid, etag.getD "No ETag"⟩) oid = vid := by
    simp only [effective_version_id, hlook, Option.some_bind]
    cases vid with
    | none => rfl
    | some v =>
      have hv : v ≠ "" := fun hveq => hvid (by rw [hveq])
      simp [hv]
  simp only [download_from_s3, hkey, heff, s3GetData]

/-- C8, witness: storing `[1]` under `"aa"` on the demo environment. -/
theorem store_records_version_fetch_pins_witness :
    (upload_to_s3 demoEnv demoSt "aa" [1]).success = true ∧
    vmLookup (upload_to_s3 demoEnv demoSt "aa" [1]).st.vm "aa" =
      some ⟨"dir/f.bin", some "V1", "E1"⟩ ∧
    (upload_to_s3 demoEnv demoSt "aa" [1]).st.disk =
      (upload_to_s3 demoEnv demoSt "aa" [1]).st.vm ∧
    download_from_s3 demoEnv (upload_to_s3 demoEnv demoSt "aa" [1]).st.vm "aa"
      = s3GetData demoEnv "dir/f.bin" (some "V1") :=
  store_records_version_fetch_pins demoEnv demoSt "aa" [1] "dir/f.bin"
    (some "V1") (some "E1") (by decide) (by decide) (by decide)

/-- C9: for an identifier with no mapping entry and no matching local file,
no key resolves (and no hash-derived fallback key is constructed), so the
PUT answers `500 Upload failed` even though the content's hash matches the
identifier — with no backend put and no state change — the GET answers
`404 Object not found`, and the existence check returns `false`. -/
theorem unresolved_oid_fails_outright (env : Env) (st : SState)
    (oid : String) (data : Bytes)
    (h1 : vmLookup st.vm oid = none)
    (h2 : get_file_path_from_local env oid = none)
    (h3 : env.sha256hex data = oid) :
    get_s3_key env st.vm oid = none ∧
    (upload_object env st oid data).resp = .jsonError 500 "Upload failed" ∧
    (upload_object env st oid data).st = st ∧
    (upload_object env st oid data).puts = [] ∧
    (download_object env st oid).resp = .jsonError 404 "Object not found" ∧
    object_exists_in_s3 env st.vm oid = false := by
  have hk : get_s3_key env st.vm oid = none := by
    simp only [get_s3_key, h1, h2]
  have hup : upload_to_s3 env st oid data =
      ⟨false, st, [], scanCount st.vm oid⟩ := by
    simp only [upload_to_s3, hk]
  have hob : upload_object env st oid data =
      ⟨.jsonError 500 "Upload failed", st, [], scanCount st.vm oid⟩ := by
    simp [upload_object, h3, hup]
  have hdown : download_from_s3 env st.vm oid = none := by
    simp only [download_from_s3, hk]
  refine ⟨hk, by rw [hob], by rw [hob], by rw [hob], ?_, ?_⟩
  · simp only [download_object, hdown]
  · simp only [object_exists_in_s3, hk]

/-- C9, witness: `"zz"` is mapped nowhere and matches no stored file, while
`demoHash [2] = "zz"`. -/
theorem unresolved_oid_fails_outright_witness :
    get_s3_key demoEnv demoSt.vm "zz" = none ∧
    (upload_object demoEnv demoSt "zz" [2]).resp =
      .jsonError 500 "Upload failed" ∧
    (upload_object demoEnv demoSt "zz" [2]).st = demoSt ∧
    (upload_object demoEnv demoSt "zz" [2]).puts = [] ∧
    (download_object demoEnv demoSt "zz").resp =
      .jsonError 404 "Object not found" ∧
    object_exists_in_s3 demoEnv demoSt.vm "zz" = false :=
  unresolved_oid_fails_outright demoEnv demoSt "zz" [2]
    (by decide) (by decide) (by decide)

/-- C10: the GET endpoint and the batch endpoint leave the server state —
the version mapping and its persisted snapshot — unchanged and issue no
backend puts; the existence check is a pure read by construction; and
`upload_to_s3` leaves the state unchanged whenever it does not succeed, so
the mapping is written only by an upload after a successful backend put. -/
theorem read_paths_preserve_mapping (env : Env) (st : SState)
    (oid repo : String) (opf : Option String) (objects : List LfsObj)
    (data : Bytes) :
    (download_object env st oid).st = st ∧
    (download_object env st oid).puts = [] ∧
    (batch_objects env st repo opf objects).2 = st ∧
    ((upload_to_s3 env st oid data).success = false →
      (upload_to_s3 env st oid data).st = st) := by
  refine ⟨download_object_st env st oid, download_object_puts env st oid,
    rfl, ?_⟩
  intro hfail
  cases hk : get_s3_key env st.vm oid with
  | none => simp [upload_to_s3, hk]
  | some key =>
    cases hp : env.s3.putResult key data with
    | ok vid etag =>
      exfalso
      simp [upload_to_s3, hk, hp] at hfail
    | err => simp [upload_to_s3, hk, hp]

/-- C10, witness on the concrete environment and a one-object batch. -/
theorem read_paths_preserve_mapping_witness :
    (download_object demoEnv demoSt "aa").st = demoSt ∧
    (download_object demoEnv demoSt "aa").puts = [] ∧
    (batch_objects demoEnv demoSt "r" (some "download") [⟨"aa", 1⟩]).2
      = demoSt ∧
    ((upload_to_s3 demoEnv demoSt "aa" [1]).success = false →
      (upload_to_s3 demoEnv demoSt "aa" [1]).st = demoSt) :=
  read_paths_preserve_mapping demoEnv demoSt "aa" "r" (some "download")
    [⟨"aa", 1⟩] [1]
